import Mathlib

/-!
Verification of the chat-proxy backend (`app.py`).

The program is a small Flask application:

* At process start it reads the `GOOGLE_API_KEY` environment variable,
  and (inside a `try`/`except`) initializes a model client `llm` when the
  key is set; on a missing/empty key, or on an initialization exception,
  `llm` stays `None`.
* The `/chat` route handles `POST` and `OPTIONS` requests: `OPTIONS`
  returns an empty 200; with `llm` uninitialized it returns 503; with an
  absent or empty `message` field it returns 400; otherwise it calls
  `llm.invoke` and returns the response text with 200, converting any
  exception to a 500 whose text depends on whether the exception's string
  representation contains `RESOURCE_EXHAUSTED`.

We embed this shallowly: the external model client is a parameter
(`invoke : Model → String → Except String AIMessage`, an exception being
the `.error` case carrying its string representation), request handling
is a total function producing an HTTP response together with the list of
lines printed by the handler, and Python truthiness of the optional
strings involved is made explicit.
-/

namespace App

/-- Python truthiness test for an optional string, as used by
`if not api_key` and `if not user_input` in `app.py`: `None` and the
empty string are falsy, every other string is truthy. -/
def pyFalsy : Option String → Bool
  | none => true
  | some s => s.isEmpty

/-- The model client object constructed by `ChatGoogleGenerativeAI(...)`
in `app.py` (lines 38-44): the model name, the temperature, the API key
and the system instruction it was configured with. The temperature `0.2`
is represented as the rational `2/10`; the handler never computes with
it. -/
structure Model where
  model : String
  temperature : ℚ
  api_key : String
  system_instruction : String
deriving Repr, DecidableEq

/-- The system persona text defined in `app.py` (lines 24-35). -/
def system_prompt : String :=
  "\n        Your name is Test. You are an advanced, general-purpose AI assistant. \n        You were created and developed by Proll. Your primary purpose is to serve \n        the users of this custom application with highly knowledgeable, friendly, \n        and enthusiastic expert guidance.\n\n        Your core intelligence is powered by Google's cutting-edge Gemini 2.5 Flash model.\n        \n        Use Markdown extensively (headings, bolding, lists) to make responses easy to read. \n        CRITICAL: When providing code snippets, always wrap the code in three backticks (```) \n        specifying the language (e.g., ```python) and ensure there is an empty line before the next paragraph.\n        "

/-- The outcome of evaluating the constructor expression
`ChatGoogleGenerativeAI(model=..., temperature=..., api_key=..., system_instruction=...)`:
either the constructed client or a raised exception (carried as its
string representation). The constructor is external code, so the
initialization step below is parameterized by it. -/
abbrev Ctor := String → ℚ → String → String → Except String Model

/-- Initialization of the global `llm` in `app.py` (lines 14-48): if the
key read from the environment is falsy (absent or empty), `llm` is left
`None`; otherwise the client constructor is called with the fixed model
name `gemini-2.5-flash-lite`, temperature `0.2`, the key, and the system
prompt, and if that call raises, the `except` block leaves `llm` as
`None`. -/
def initLlm (ctor : Ctor) (api_key : Option String) : Option Model :=
  if pyFalsy api_key then
    none
  else
    match ctor "gemini-2.5-flash-lite" (2/10) (api_key.getD "") system_prompt with
    | Except.ok m => some m
    | Except.error _ => none

/-- The lines printed during initialization (lines 20, 45, 47 of
`app.py`). -/
def initLog (ctor : Ctor) (api_key : Option String) : List String :=
  if pyFalsy api_key then
    ["FATAL ERROR: GOOGLE_API_KEY environment variable not set. Model not initialized."]
  else
    match ctor "gemini-2.5-flash-lite" (2/10) (api_key.getD "") system_prompt with
    | Except.ok _ => ["AI Model and Flask server initialized successfully."]
    | Except.error e =>
        ["FATAL ERROR: Could not initialize AI component with API key. Error: " ++ e]

/-- The process-wide configuration state of the server: the credential
read from the environment at startup and the (possibly uninitialized)
model client handle. -/
structure ServerState where
  api_key : Option String
  llm : Option Model
deriving Repr, DecidableEq

/-- The server state produced by process start (lines 14-48 of
`app.py`). -/
def startServer (ctor : Ctor) (env_api_key : Option String) : ServerState :=
  ServerState.mk env_api_key (initLlm ctor env_api_key)

/-- The message object returned by a successful `llm.invoke` call; the
handler reads its `.content` text (line 75 of `app.py`). -/
structure AIMessage where
  content : String
deriving Repr, DecidableEq

/-- The behavior of the external `llm.invoke` call: given the client and
the input string it either returns a message or raises an exception,
carried as its string representation `str(e)`. -/
abbrev Invoke := Model → String → Except String AIMessage

/-- The HTTP methods the `/chat` route accepts (line 58 of `app.py`). -/
inductive Method where
  | POST
  | OPTIONS
deriving Repr, DecidableEq

/-- The JSON bodies the handler produces: `jsonify()` of the empty
object, or of an object with a single `response` field. -/
inductive JsonBody where
  | emptyObj : JsonBody
  | responseObj : String → JsonBody
deriving Repr, DecidableEq

/-- An HTTP response: a status code and a JSON body. -/
structure HttpResponse where
  status : Nat
  body : JsonBody
deriving Repr, DecidableEq

/-- The 503 body text of line 65 of `app.py`. -/
def setupErrorText : String :=
  "Server setup error: Gemini API key is missing or invalid."

/-- The 400 body text of line 69 of `app.py`. -/
def emptyMessageText : String := "Please provide a message."

/-- The quota-exceeded 500 body text of line 80 of `app.py`. -/
def quotaText : String :=
  "I apologize, the free tier usage quota has been exceeded. Please try again later or consider enabling billing for higher limits."

/-- The generic 500 body text of line 81 of `app.py`. -/
def genericErrorText : String :=
  "I apologize, there was an issue processing your request. Please try again."

/-- The `chat` handler of `app.py` (lines 58-81), as a total function
from the configuration state, the external invoke behavior, the request
method and the request body's optional `message` field to the HTTP
response together with the list of lines the handler prints. -/
def chat (st : ServerState) (invoke : Invoke) (method : Method)
    (message : Option String) : HttpResponse × List String :=
  if method = Method.OPTIONS then
    (HttpResponse.mk 200 JsonBody.emptyObj, [])
  else
    match st.llm with
    | none => (HttpResponse.mk 503 (JsonBody.responseObj setupErrorText), [])
    | some llm =>
      if pyFalsy message then
        (HttpResponse.mk 400 (JsonBody.responseObj emptyMessageText), [])
      else
        let user_input := message.getD ""
        match invoke llm user_input with
        | Except.ok response =>
            (HttpResponse.mk 200 (JsonBody.responseObj response.content), [])
        | Except.error e =>
            let log := ["Error during AI invocation: " ++ e]
            if (e : String).containsSubstr "RESOURCE_EXHAUSTED" then
              (HttpResponse.mk 500 (JsonBody.responseObj quotaText), log)
            else
              (HttpResponse.mk 500 (JsonBody.responseObj genericErrorText), log)

/-- A request to the `/chat` route: a method and the optional `message`
field of the JSON body. -/
structure ChatRequest where
  method : Method
  message : Option String
deriving Repr, DecidableEq

/-- Handling one `/chat` request at the level of the whole process state:
the handler reads the global configuration and never assigns to it (the
body of `chat` in `app.py` contains no assignment to `llm` or `api_key`),
so the state after the request is the state before it, paired with the
response and the printed log. -/
def handleRequest (st : ServerState) (invoke : Invoke) (req : ChatRequest) :
    ServerState × HttpResponse × List String :=
  (st, chat st invoke req.method req.message)

end App

namespace App

/-- The empty string is the only Python-falsy present string. -/
theorem pyFalsy_some (s : String) : pyFalsy (some s) = false ↔ s ≠ "" := by
  simp [pyFalsy, ← String.isEmpty_iff]

/-- C1: for every POST /chat request where the credential is configured
(`llm` initialized), the `message` field is a non-empty string, and the
upstream `invoke` returns a response whose text content is `T`, the
handler returns status 200 with the JSON body whose `response` field is
`T`. -/
theorem chat_success (st : ServerState) (invoke : Invoke) (m : Model)
    (s T : String) (hm : st.llm = some m) (hs : s ≠ "")
    (hinv : invoke m s = Except.ok (AIMessage.mk T)) :
    (chat st invoke Method.POST (some s)).1 =
      HttpResponse.mk 200 (JsonBody.responseObj T) := by
  have hf : pyFalsy (some s) = false := (pyFalsy_some s).mpr hs
  simp [chat, hm, hf, hinv]

/-- Witness for C1 at a concrete state, message and upstream. -/
theorem chat_success_witness :
    (ServerState.mk (some "k") (some (Model.mk "gemini-2.5-flash-lite" (2/10) "k" system_prompt))).llm
        = some (Model.mk "gemini-2.5-flash-lite" (2/10) "k" system_prompt) ∧
    "hi" ≠ "" ∧
    (chat (ServerState.mk (some "k") (some (Model.mk "gemini-2.5-flash-lite" (2/10) "k" system_prompt)))
        (fun _ _ => Except.ok (AIMessage.mk "hello")) Method.POST (some "hi")).1 =
      HttpResponse.mk 200 (JsonBody.responseObj "hello") :=
  ⟨rfl, by decide,
    chat_success _ _ (Model.mk "gemini-2.5-flash-lite" (2/10) "k" system_prompt)
      "hi" "hello" rfl (by decide) rfl⟩

/-- C2: for every POST /chat request with a non-empty message where the
upstream `invoke` raises an exception `e`, the handler returns status
500; the body carries the quota-exceeded text if and only if the
exception's string representation contains `RESOURCE_EXHAUSTED`, and the
generic apology text otherwise. -/
theorem chat_upstream_error (st : ServerState) (invoke : Invoke) (m : Model)
    (s e : String) (hm : st.llm = some m) (hs : s ≠ "")
    (hinv : invoke m s = Except.error e) :
    (chat st invoke Method.POST (some s)).1.status = 500 ∧
    ((chat st invoke Method.POST (some s)).1.body = JsonBody.responseObj quotaText ↔
      e.containsSubstr "RESOURCE_EXHAUSTED" = true) ∧
    ((chat st invoke Method.POST (some s)).1.body = JsonBody.responseObj genericErrorText ↔
      e.containsSubstr "RESOURCE_EXHAUSTED" = false) := by
  have hf : pyFalsy (some s) = false := (pyFalsy_some s).mpr hs
  have hne : quotaText ≠ genericErrorText := by decide
  cases hsub : e.containsSubstr "RESOURCE_EXHAUSTED" <;>
    simp [chat, hm, hf, hinv, hsub, hne, Ne.symm hne]

/-- Witness for C2 at a concrete state, message and raising upstream. -/
theorem chat_upstream_error_witness :
    (ServerState.mk (some "k") (some (Model.mk "g" (2/10) "k" ""))).llm
        = some (Model.mk "g" (2/10) "k" "") ∧
    "hi" ≠ "" ∧
    (fun (_ : Model) (_ : String) =>
        (Except.error "429 RESOURCE_EXHAUSTED: quota" : Except String AIMessage))
        (Model.mk "g" (2/10) "k" "") "hi" = Except.error "429 RESOURCE_EXHAUSTED: quota" ∧
    ((chat (ServerState.mk (some "k") (some (Model.mk "g" (2/10) "k" "")))
        (fun _ _ => Except.error "429 RESOURCE_EXHAUSTED: quota") Method.POST (some "hi")).1.status = 500 ∧
     ((chat (ServerState.mk (some "k") (some (Model.mk "g" (2/10) "k" "")))
        (fun _ _ => Except.error "429 RESOURCE_EXHAUSTED: quota") Method.POST (some "hi")).1.body
          = JsonBody.responseObj quotaText ↔
        ("429 RESOURCE_EXHAUSTED: quota").containsSubstr "RESOURCE_EXHAUSTED" = true) ∧
     ((chat (ServerState.mk (some "k") (some (Model.mk "g" (2/10) "k" "")))
        (fun _ _ => Except.error "429 RESOURCE_EXHAUSTED: quota") Method.POST (some "hi")).1.body
          = JsonBody.responseObj genericErrorText ↔
        ("429 RESOURCE_EXHAUSTED: quota").containsSubstr "RESOURCE_EXHAUSTED" = false)) :=
  ⟨rfl, by decide, rfl,
    chat_upstream_error _ _ (Model.mk "g" (2/10) "k" "")
      "hi" "429 RESOURCE_EXHAUSTED: quota" rfl (by decide) rfl⟩

end App

namespace App

/-- Helper: a POST /chat request handled while the model handle is
uninitialized (`llm = None`) gets the 503 configuration-error response,
whatever the message. -/
theorem chat_of_llm_none (st : ServerState) (invoke : Invoke)
    (message : Option String) (hllm : st.llm = none) :
    (chat st invoke Method.POST message).1 =
      HttpResponse.mk 503 (JsonBody.responseObj setupErrorText) := by
  simp [chat, hllm]

/-- C3: for every POST /chat request issued when the service credential
was not configured at startup (the environment variable absent or
empty), regardless of the `message` field's presence, emptiness, or
content, the handler returns status 503 with the fixed
configuration-error text. -/
theorem chat_unconfigured (ctor : Ctor) (env : Option String)
    (invoke : Invoke) (message : Option String)
    (henv : pyFalsy env = true) :
    (chat (startServer ctor env) invoke Method.POST message).1 =
      HttpResponse.mk 503 (JsonBody.responseObj setupErrorText) :=
  chat_of_llm_none _ _ message (by simp [startServer, initLlm, henv])

/-- Witness for C3 at a concrete absent credential and message. -/
theorem chat_unconfigured_witness :
    pyFalsy none = true ∧
    (chat (startServer (fun _ _ _ _ => Except.error "unused") none)
        (fun _ _ => Except.error "unreachable") Method.POST (some "hello")).1 =
      HttpResponse.mk 503 (JsonBody.responseObj setupErrorText) :=
  ⟨by decide, chat_unconfigured _ none _ (some "hello") (by decide)⟩

/-- C4 counterexample: a POST /chat request with an absent `message`
field made while `llm` is uninitialized returns the 503
configuration-error response, not the 400 prompt-for-input response, so
the unconditional claim fails. -/
theorem chat_empty_message_counterexample :
    (chat (ServerState.mk none none) (fun _ _ => Except.error "unreachable")
        Method.POST none).1 ≠
      HttpResponse.mk 400 (JsonBody.responseObj emptyMessageText) ∧
    (chat (ServerState.mk none none) (fun _ _ => Except.error "unreachable")
        Method.POST none).1 =
      HttpResponse.mk 503 (JsonBody.responseObj setupErrorText) := by
  constructor
  · decide
  · decide

/-- C4 (amended): for every POST /chat request issued when the model
handle is initialized, if the JSON body's `message` field is absent or
empty, the handler returns status 400 with the fixed prompt-for-input
message. -/
theorem chat_empty_message (st : ServerState) (invoke : Invoke) (m : Model)
    (message : Option String) (hm : st.llm = some m)
    (hmsg : pyFalsy message = true) :
    (chat st invoke Method.POST message).1 =
      HttpResponse.mk 400 (JsonBody.responseObj emptyMessageText) := by
  simp [chat, hm, hmsg]

/-- Witness for amended C4 at a concrete configured state with an absent
message. -/
theorem chat_empty_message_witness :
    (ServerState.mk (some "k") (some (Model.mk "g" (2/10) "k" ""))).llm
        = some (Model.mk "g" (2/10) "k" "") ∧
    pyFalsy none = true ∧
    (chat (ServerState.mk (some "k") (some (Model.mk "g" (2/10) "k" "")))
        (fun _ _ => Except.error "unreachable") Method.POST none).1 =
      HttpResponse.mk 400 (JsonBody.responseObj emptyMessageText) :=
  ⟨rfl, by decide,
    chat_empty_message _ _ (Model.mk "g" (2/10) "k" "") none rfl (by decide)⟩

/-- C5: every exception raised by the upstream invocation during a POST
/chat request with a configured model and non-empty message is absorbed
by the handler (which, being a total function, always returns a
response): the result is a 500 JSON response, and the exception is
logged via the handler's printed output. -/
theorem chat_exception_caught (st : ServerState) (invoke : Invoke)
    (m : Model) (s e : String) (hm : st.llm = some m) (hs : s ≠ "")
    (hinv : invoke m s = Except.error e) :
    (chat st invoke Method.POST (some s)).1.status = 500 ∧
    ("Error during AI invocation: " ++ e) ∈ (chat st invoke Method.POST (some s)).2 := by
  have hf : pyFalsy (some s) = false := (pyFalsy_some s).mpr hs
  cases hsub : e.containsSubstr "RESOURCE_EXHAUSTED" <;>
    simp [chat, hm, hf, hinv, hsub]

/-- Witness for C5 at a concrete state, message and raising upstream. -/
theorem chat_exception_caught_witness :
    (ServerState.mk (some "k") (some (Model.mk "g" (2/10) "k" ""))).llm
        = some (Model.mk "g" (2/10) "k" "") ∧
    "hi" ≠ "" ∧
    (fun (_ : Model) (_ : String) =>
        (Except.error "network down" : Except String AIMessage))
        (Model.mk "g" (2/10) "k" "") "hi" = Except.error "network down" ∧
    ((chat (ServerState.mk (some "k") (some (Model.mk "g" (2/10) "k" "")))
        (fun _ _ => Except.error "network down") Method.POST (some "hi")).1.status = 500 ∧
     ("Error during AI invocation: " ++ "network down") ∈
       (chat (ServerState.mk (some "k") (some (Model.mk "g" (2/10) "k" "")))
        (fun _ _ => Except.error "network down") Method.POST (some "hi")).2) :=
  ⟨rfl, by decide, rfl,
    chat_exception_caught _ _ (Model.mk "g" (2/10) "k" "")
      "hi" "network down" rfl (by decide) rfl⟩

/-- C6: for every POST request to /chat, in every configuration state
and for every upstream behavior and message, the handler returns a
response whose status code is 200, 400, 500 or 503. -/
theorem chat_status_total (st : ServerState) (invoke : Invoke)
    (message : Option String) :
    (chat st invoke Method.POST message).1.status = 200 ∨
    (chat st invoke Method.POST message).1.status = 400 ∨
    (chat st invoke Method.POST message).1.status = 500 ∨
    (chat st invoke Method.POST message).1.status = 503 := by
  rcases st with ⟨k, l⟩
  cases l with
  | none => simp [chat]
  | some m =>
    cases hmsg : pyFalsy message with
    | true => simp [chat, hmsg]
    | false =>
      cases hinv : invoke m (message.getD "") with
      | ok r => simp [chat, hmsg, hinv]
      | error e =>
        cases hsub : e.containsSubstr "RESOURCE_EXHAUSTED" <;>
          simp [chat, hmsg, hinv, hsub]

/-- C7: for every OPTIONS request to /chat, in every configuration state
(credential present or absent, `llm` initialized or `None`) and for
every message, the handler returns status 200 with an empty body. -/
theorem chat_options (st : ServerState) (invoke : Invoke)
    (message : Option String) :
    chat st invoke Method.OPTIONS message =
      (HttpResponse.mk 200 JsonBody.emptyObj, []) := by
  simp [chat]

end App

namespace App

/-- C8: handling a /chat request leaves the process-wide configuration
state (the credential and the model-client handle, with its fixed
persona and temperature) exactly as it was: the handler only reads it,
so the state after any request in any configuration, for any upstream
behavior, equals the state before it. -/
theorem handleRequest_preserves_state (st : ServerState) (invoke : Invoke)
    (req : ChatRequest) : (handleRequest st invoke req).1 = st := rfl

/-- C9: an API key that is present in the environment but equal to the
empty string is Python-falsy, so initialization leaves the model handle
`None` and every subsequent POST /chat request, whatever its message,
gets the 503 configuration-error response. -/
theorem empty_key_treated_as_absent (ctor : Ctor) (invoke : Invoke)
    (message : Option String) :
    initLlm ctor (some "") = none ∧
    (chat (startServer ctor (some "")) invoke Method.POST message).1 =
      HttpResponse.mk 503 (JsonBody.responseObj setupErrorText) := by
  have h : initLlm ctor (some "") = none := rfl
  exact ⟨h, chat_of_llm_none _ _ message (by simpa [startServer] using h)⟩

/-- C10: when the credential is present (non-falsy) but the client
constructor raises, initialization leaves the model handle `None` — the
same state as with the credential absent — and since the handler
branches only on that handle, every POST /chat request gets the same 503
response whose text says the key is missing or invalid. -/
theorem init_failure_gives_503 (ctor : Ctor) (invoke : Invoke)
    (k e : String) (message : Option String) (hk : k ≠ "")
    (hctor : ctor "gemini-2.5-flash-lite" (2/10) k system_prompt =
      Except.error e) :
    initLlm ctor (some k) = none ∧
    initLlm ctor (some k) = initLlm ctor none ∧
    (chat (startServer ctor (some k)) invoke Method.POST message).1 =
      HttpResponse.mk 503 (JsonBody.responseObj setupErrorText) := by
  have hf : pyFalsy (some k) = false := (pyFalsy_some k).mpr hk
  have h : initLlm ctor (some k) = none := by
    simp [initLlm, hf, hctor]
  refine ⟨h, ?_, chat_of_llm_none _ _ message (by simpa [startServer] using h)⟩
  rw [h]
  rfl

/-- Witness for C10 at a concrete key and raising constructor. -/
theorem init_failure_gives_503_witness :
    "bad-key" ≠ "" ∧
    (fun (_ : String) (_ : ℚ) (_ : String) (_ : String) =>
        (Except.error "invalid credential" : Except String Model))
        "gemini-2.5-flash-lite" (2/10) "bad-key" system_prompt =
      Except.error "invalid credential" ∧
    (initLlm (fun _ _ _ _ => Except.error "invalid credential") (some "bad-key") = none ∧
     initLlm (fun _ _ _ _ => Except.error "invalid credential") (some "bad-key") =
       initLlm (fun _ _ _ _ => Except.error "invalid credential") none ∧
     (chat (startServer (fun _ _ _ _ => Except.error "invalid credential") (some "bad-key"))
        (fun _ _ => Except.error "unused") Method.POST (some "hi")).1 =
       HttpResponse.mk 503 (JsonBody.responseObj setupErrorText)) :=
  ⟨by decide, rfl,
    init_failure_gives_503 _ _ "bad-key" "invalid credential" (some "hi")
      (by decide) rfl⟩

end App
